import Mathlib

/-!
Verification of the tablespace lifecycle manager
(src/backend/commands/tablespace.c) against its specification.

We build a shallow embedding of the code: catalog state is a list of
pg_tablespace rows, the per-tablespace filesystem footprint is an explicit
state record, and each C function becomes a Lean function threading that
state.  External collaborators (permission checks, the checkpointer, the
recovery-conflict resolver, the identifier-list splitter) appear as
parameters or oracle functions, mirroring the interfaces the code consumes.
-/

namespace Tblspc

/-- Sentinel OID: `InvalidOid` in the source, meaning "use the database's
default tablespace" in the contexts modelled here. -/
def InvalidOid : Nat := 0

/-- OID of the built-in `pg_global` tablespace (`GLOBALTABLESPACE_OID`). -/
def GLOBALTABLESPACE_OID : Nat := 1664

/-- OID of the built-in `pg_default` tablespace (`DEFAULTTABLESPACE_OID`). -/
def DEFAULTTABLESPACE_OID : Nat := 1663

/-- Error conditions raised by the code via `ereport(ERROR, ...)` /
`aclcheck_error`, identified by their SQLSTATE class or ACL failure kind. -/
inductive PGError where
  /-- ERRCODE_INSUFFICIENT_PRIVILEGE (superuser check in CreateTableSpace). -/
  | insufficientPrivilege
  /-- ERRCODE_UNDEFINED_OBJECT (tablespace does not exist). -/
  | undefinedObject
  /-- ERRCODE_DUPLICATE_OBJECT (tablespace already exists). -/
  | duplicateObject
  /-- ERRCODE_RESERVED_NAME (name begins with a reserved prefix). -/
  | reservedName
  /-- ERRCODE_INVALID_NAME (location contains a single quote). -/
  | invalidName
  /-- ERRCODE_INVALID_OBJECT_DEFINITION (relative or over-long location). -/
  | invalidObjectDefinition
  /-- ERRCODE_OBJECT_NOT_IN_PREREQUISITE_STATE ("tablespace is not empty"). -/
  | objectNotInPrerequisiteState
  /-- ERRCODE_OBJECT_IN_USE (directory already in use as a tablespace). -/
  | objectInUse
  /-- aclcheck_error with ACLCHECK_NO_PRIV. -/
  | aclNoPriv
  /-- aclcheck_error with ACLCHECK_NOT_OWNER. -/
  | aclNotOwner
  /-- errcode_for_file_access() wrapped I/O failure. -/
  | fileAccess
  /-- ERRCODE_UNDEFINED_FILE (tablespace location does not exist). -/
  | undefinedFile
  /-- ERRCODE_WRONG_OBJECT_TYPE (path exists but is not a directory). -/
  | wrongObjectType
  /-- ERRCODE_SYNTAX_ERROR (bad segment specification / content id). -/
  | syntaxError
  /-- ERRCODE_INVALID_TEXT_REPRESENTATION (pg_atoi failure). -/
  | invalidTextRepresentation
  /-- ERRCODE_INVALID_PARAMETER_VALUE (rejected tablespace options). -/
  | invalidParameterValue
  deriving DecidableEq, Repr

/-- Row of the pg_tablespace catalog that the claims need: oid, name, owner.
(The spcoptions column is not needed by any claim and carries no behavior
in the modelled paths.) -/
structure TsRow where
  oid : Nat
  name : String
  owner : Nat
  deriving DecidableEq, Repr

/-- Greenplum role of the current process (`Gp_role`). -/
inductive GpRole where
  | dispatch
  | execute
  | utility
  deriving DecidableEq, Repr

/-- Flags passed to `CdbDispatchUtilityStatement`. -/
structure DispatchFlags where
  cancelOnError : Bool
  withSnapshot : Bool
  needTwoPhase : Bool
  deriving DecidableEq, Repr

/-- Dispatch flags used by CreateTableSpace (tablespace.c lines 450-453):
`DF_CANCEL_ON_ERROR | DF_WITH_SNAPSHOT | DF_NEED_TWO_PHASE`. -/
def createDispatchFlags : DispatchFlags :=
  { cancelOnError := true, withSnapshot := true, needTwoPhase := true }

/-- Dispatch flags used by DropTableSpace (tablespace.c lines 633-638):
`DF_CANCEL_ON_ERROR | DF_WITH_SNAPSHOT | DF_NEED_TWO_PHASE`. -/
def dropDispatchFlags : DispatchFlags :=
  { cancelOnError := true, withSnapshot := true, needTwoPhase := true }

/-- Flags passed to `RequestCheckpoint` by DropTableSpace (line 581):
`CHECKPOINT_IMMEDIATE | CHECKPOINT_FORCE | CHECKPOINT_WAIT`. -/
structure CheckpointFlags where
  immediate : Bool
  force : Bool
  wait : Bool
  deriving DecidableEq, Repr

/-- The checkpoint request issued by DropTableSpace. -/
def dropCheckpointRequest : CheckpointFlags :=
  { immediate := true, force := true, wait := true }

/-! Section: filesystem model for one tablespace.


The physical footprint of one tablespace, as manipulated by
`create_tablespace_directories` / `destroy_tablespace_directories`:
the target location directory, the versioned subdirectory
`<location>/<tablespace_version_directory()>` with its per-database
subdirectories, and the `pg_tblspc/<oid>` link.  I/O failures other than
the ENOENT / EEXIST / not-empty conditions the code branches on are outside
the model (the corresponding `ereport` branches are unreachable here). -/

/-- State of the `pg_tblspc/<oid>` path: absent, a plain directory (as
`TablespaceCreateDbspace` can leave behind during replay, and as junction
points appear on Windows), or a symlink to a target. -/
inductive LinkState where
  | absent
  | dirLink
  | symlinkTo (target : String)
  deriving DecidableEq, Repr

/-- Outcome of `chmod(location, S_IRWXU)`: success, ENOENT (location
missing), or another failure (wrong owner / permissions). -/
inductive ChmodOutcome where
  | ok
  | enoent
  | eperm
  deriving DecidableEq, Repr

/-- A per-database subdirectory of the versioned directory: its name and the
names of the files inside it. -/
abbrev DbSubdir := String × List String

/-- Filesystem state relevant to one tablespace. `versionDir = none` means
the versioned subdirectory does not exist; `some subs` gives its
per-database subdirectories. -/
structure TsFs where
  chmodOutcome : ChmodOutcome
  versionDir : Option (List DbSubdir)
  link : LinkState
  deriving DecidableEq, Repr

/-- The per-database subdirectory removal loop of
`destroy_tablespace_directories` (lines 836-861).  Walks the entries in
directory order; an empty subdirectory is `rmdir`ed; a non-empty one makes
`rmdir` fail.  Outside redo the function returns false at the first
non-empty subdirectory (the `directory_is_empty` check), leaving the rest
untouched; during redo the failure is only logged and the loop continues.
Returns (all removed?, remaining subdirectories). -/
def removeEmptySubdirs (redo : Bool) : List DbSubdir → Bool × List DbSubdir
  | [] => (true, [])
  | (d, files) :: rest =>
    if files.isEmpty then
      removeEmptySubdirs redo rest
    else if redo then
      let (_, rest') := removeEmptySubdirs redo rest
      (false, (d, files) :: rest')
    else
      (false, (d, files) :: rest)

/-- Model of `destroy_tablespace_directories(tablespaceoid, redo)` (lines
775-914).
Returns (true iff fully successful, resulting filesystem state).
If the versioned directory is absent (ENOENT), that is tolerated (warning
outside redo, silent in redo) and the code proceeds to remove the symlink,
returning true.  Otherwise each per-database subdirectory is removed if
empty; a non-empty one makes the call return false (outside redo:
immediately, before touching the versioned directory or the link; in redo:
after attempting the rest and failing to remove the versioned directory).
On full success the versioned directory and then the link are removed;
ENOENT on the link is a warning only. -/
def destroy_tablespace_directories (redo : Bool) (fs : TsFs) : Bool × TsFs :=
  match fs.versionDir with
  | none => (true, { fs with link := .absent })
  | some subs =>
    let (ok, remaining) := removeEmptySubdirs redo subs
    if ok then
      (true, { fs with versionDir := none, link := .absent })
    else
      (false, { fs with versionDir := some remaining })

/-- Model of `create_tablespace_directories(location, tablespaceoid)`
(lines 655-759).  `inRecovery` is the global `InRecovery` flag.  Returns
(result, resulting filesystem state); on error the state reflects any
mutations already performed (directory operations do not roll back).
Order of operations, as in the source: chmod the location (ENOENT gives
undefinedFile, other failure a file-access error); in recovery, rmtree a
pre-existing versioned directory; mkdir the versioned directory (EEXIST
gives objectInUse); in recovery, remove a pre-existing link (rmdir for a
directory, unlink for a symlink, ENOENT tolerated); finally symlink
(failure, e.g. EEXIST, is a file-access error). -/
def create_tablespace_directories (inRecovery : Bool) (location : String)
    (fs : TsFs) : Except PGError Unit × TsFs :=
  match fs.chmodOutcome with
  | .enoent => (.error .undefinedFile, fs)
  | .eperm => (.error .fileAccess, fs)
  | .ok =>
    let fs1 := if inRecovery ∧ fs.versionDir.isSome then
                 { fs with versionDir := none }
               else fs
    if fs1.versionDir.isSome then
      (.error .objectInUse, fs1)
    else
      let fs2 := { fs1 with versionDir := some [] }
      let fs3 := if inRecovery then { fs2 with link := .absent } else fs2
      match fs3.link with
      | .absent => (.ok (), { fs3 with link := .symlinkTo location })
      | _ => (.error .fileAccess, fs3)

/-! Section: Catalog lookup. -/

/-- Model of `get_tablespace_oid(tablespacename, missing_ok)` (lines
1650-1734):
scan pg_tablespace for the name; found gives its oid, absent gives
undefinedObject unless `missing_ok`, in which case InvalidOid.  The
key-share tuple lock taken on the found row, and the serialization failure
it can raise under a concurrent update, are concurrency behavior outside
this single-session model. -/
def get_tablespace_oid (catalog : List TsRow) (tablespacename : String)
    (missing_ok : Bool) : Except PGError Nat :=
  match catalog.find? (fun r => r.name = tablespacename) with
  | some r => .ok r.oid
  | none =>
    if missing_ok then .ok InvalidOid else .error .undefinedObject

/-- Model of `get_tablespace_name(spc_oid)` (lines 1741-1774): scan
pg_tablespace by
oid, returning the name or NULL. -/
def get_tablespace_name (catalog : List TsRow) (spc_oid : Nat) :
    Option String :=
  (catalog.find? (fun r => r.oid = spc_oid)).map (fun r => r.name)

/-- Model of `pg_tablespace_ownercheck(oid, roleid)` as consumed by this
file: a
superuser passes, otherwise the caller must be the row's owner.  The ACL
machinery itself is an external collaborator ("consumed as a yes/no
check"). -/
def ownercheck (isSuper : Bool) (userId : Nat) (row : TsRow) : Bool :=
  isSuper || userId = row.owner

/-! Section: DropTableSpace. -/

/-- Statement argument of DropTableSpace. -/
structure DropTableSpaceStmt where
  tablespacename : String
  missing_ok : Bool
  deriving DecidableEq, Repr

/-- Everything DropTableSpace produces: the result (`ok true` dropped,
`ok false` the missing_ok notice-and-skip path), the catalog as observable
after the transaction (unchanged when the transaction aborts with an
error), the filesystem state (directory operations are not transactional
and persist even on abort), the checkpoint requests issued, the number of
`destroy_tablespace_directories` calls, whether the drop WAL record was
inserted, and the flags of the dispatched statement (none when not
dispatched). -/
structure DropOutcome where
  result : Except PGError Bool
  catalog : List TsRow
  fs : TsFs
  checkpointRequests : List CheckpointFlags
  destroyCalls : Nat
  walDropLogged : Bool
  dispatchedFlags : Option DispatchFlags
  deriving Repr

/-- Model of `DropTableSpace(stmt)` (lines 478-646).  `checkpoint` is the
external
checkpointer's effect on this tablespace's filesystem state.  Control flow
as in the source: find the row by name (missing: notice-and-return under
missing_ok, else error); ownership check; refuse the two built-in
tablespaces via `aclcheck_error(ACLCHECK_NO_PRIV, ...)` even for a
superuser; delete the catalog row (rolls back on any later error); first
`destroy_tablespace_directories(oid, false)`; on false, one
`RequestCheckpoint(CHECKPOINT_IMMEDIATE|FORCE|WAIT)` and one retry; on a
second false, error "tablespace is not empty"; otherwise WAL-log the drop,
force synchronous commit, and on a dispatch-role coordinator dispatch the
identical statement with `dropDispatchFlags`. -/
def DropTableSpace (catalog : List TsRow) (userId : Nat) (isSuper : Bool)
    (gpRole : GpRole) (stmt : DropTableSpaceStmt) (fs : TsFs)
    (checkpoint : TsFs → TsFs) : DropOutcome :=
  match catalog.find? (fun r => r.name = stmt.tablespacename) with
  | none =>
    if stmt.missing_ok then
      { result := .ok false, catalog := catalog, fs := fs,
        checkpointRequests := [], destroyCalls := 0,
        walDropLogged := false, dispatchedFlags := none }
    else
      { result := .error .undefinedObject, catalog := catalog, fs := fs,
        checkpointRequests := [], destroyCalls := 0,
        walDropLogged := false, dispatchedFlags := none }
  | some row =>
    if ¬ ownercheck isSuper userId row then
      { result := .error .aclNotOwner, catalog := catalog, fs := fs,
        checkpointRequests := [], destroyCalls := 0,
        walDropLogged := false, dispatchedFlags := none }
    else if row.oid = GLOBALTABLESPACE_OID ∨ row.oid = DEFAULTTABLESPACE_OID then
      { result := .error .aclNoPriv, catalog := catalog, fs := fs,
        checkpointRequests := [], destroyCalls := 0,
        walDropLogged := false, dispatchedFlags := none }
    else
      let catalogAfterDelete := catalog.filter (fun r => r.oid ≠ row.oid)
      let (ok1, fs1) := destroy_tablespace_directories false fs
      if ok1 then
        { result := .ok true, catalog := catalogAfterDelete, fs := fs1,
          checkpointRequests := [], destroyCalls := 1,
          walDropLogged := true,
          dispatchedFlags :=
            if gpRole = .dispatch then some dropDispatchFlags else none }
      else
        let fs2 := checkpoint fs1
        let (ok2, fs3) := destroy_tablespace_directories false fs2
        if ok2 then
          { result := .ok true, catalog := catalogAfterDelete, fs := fs3,
            checkpointRequests := [dropCheckpointRequest], destroyCalls := 2,
            walDropLogged := true,
            dispatchedFlags :=
              if gpRole = .dispatch then some dropDispatchFlags else none }
        else
          { result := .error .objectNotInPrerequisiteState, catalog := catalog,
            fs := fs3, checkpointRequests := [dropCheckpointRequest],
            destroyCalls := 2, walDropLogged := false,
            dispatchedFlags := none }

/-! Section: RenameTableSpace. -/

/-- Modelled from the spec: `IsReservedName` / `GetReservedPrefix`
(catalog.c, outside the sampled core).  The spec reserves names "beginning
with the reserved system prefix"; the code's own error detail names the
"pg_" prefix, and the vendor prefix "gp_" is reserved alike. -/
def IsReservedName (name : String) : Bool :=
  List.isPrefixOf "pg_".data name.data || List.isPrefixOf "gp_".data name.data

/-- Model of `RenameTableSpace(oldname, newname)` (lines 947-1029).
Returns (result
with the renamed tablespace's oid, catalog after the call).  Control flow
as in the source: find the old row (absent: undefinedObject); ownership
check via `aclcheck_error(ACLCHECK_NO_PRIV, ...)`; reject a reserved new
name unless `allowSystemTableMods`; reject an existing new name
(duplicateObject); update the row's name in place.  Note the source has no
check against renaming the built-in tablespaces: only these four checks
run. -/
def RenameTableSpace (catalog : List TsRow) (userId : Nat) (isSuper : Bool)
    (allowSystemTableMods : Bool) (oldname newname : String) :
    Except PGError Nat × List TsRow :=
  match catalog.find? (fun r => r.name = oldname) with
  | none => (.error .undefinedObject, catalog)
  | some row =>
    if ¬ ownercheck isSuper userId row then
      (.error .aclNoPriv, catalog)
    else if ¬ allowSystemTableMods ∧ IsReservedName newname then
      (.error .reservedName, catalog)
    else if (catalog.find? (fun r => r.name = newname)).isSome then
      (.error .duplicateObject, catalog)
    else
      (.ok row.oid,
       catalog.map (fun r => if r.oid = row.oid then { r with name := newname } else r))

/-! Section: CreateTableSpace. -/

/-- The single-quote character, written by code point to keep the source
free of quote literals. -/
def singleQuote : Char := Char.ofNat 39

/-- Directory-separator test on the reversed character list: helper for
`canonicalize_path`. -/
def dropTrailingSlashesRev : List Char → List Char
  | [] => []
  | c :: rest =>
    if c = '/' ∧ rest ≠ [] then dropTrailingSlashesRev rest else c :: rest

/-- Modelled from the spec: `canonicalize_path` (src/port/path.c, outside
the sampled core).  The call site's own comment says "Unix-ify the offered
path, and strip any trailing slashes"; we model the trailing-slash
stripping (keeping a root "/").  The facts that matter for the claims are
that canonicalization preserves embedded quote characters and whether the
path is absolute. -/
def canonicalize_path (s : String) : String :=
  String.mk (dropTrailingSlashesRev s.data.reverse).reverse

/-- Modelled from the spec: `is_absolute_path` (c.h, outside the sampled
core): the path begins with a directory separator. -/
def is_absolute_path (s : String) : Bool :=
  match s.data with
  | [] => false
  | c :: _ => c = '/'

/-- MAXPGPATH. -/
def MAXPGPATH : Nat := 1024

/-- OIDCHARS: maximum characters in a printed OID. -/
def OIDCHARS : Nat := 10

/-- FORKNAMECHARS: maximum characters in a fork name. -/
def FORKNAMECHARS : Nat := 4

/-- Statement argument of CreateTableSpace.  `options` carries the
segment-level location overrides as (defname, argument string) pairs;
`owner` is the already-resolved owner role oid, if given. -/
structure CreateTableSpaceStmt where
  tablespacename : String
  owner : Option Nat
  location : String
  options : List (String × String)
  deriving DecidableEq, Repr

/-- Session-level globals consumed by the lifecycle operations. -/
structure SessionCtx where
  userId : Nat
  isSuper : Bool
  allowSystemTableMods : Bool
  gpRole : GpRole
  /-- Segment count, `getgpsegmentCount()`. -/
  segCount : Int
  /-- Content id of this process, `GpIdentity.segindex`. -/
  segindex : Int
  /-- Default tablespace of the current database, `MyDatabaseTableSpace`. -/
  myDatabaseTableSpace : Nat
  deriving Repr

/-- Model of `pg_atoi(s, sizeof(int16), 0)`: parse a decimal integer,
failing (with
an invalid-text-representation error) on garbage or int16 overflow. -/
def pg_atoi16 (s : String) : Except PGError Int :=
  match s.toInt? with
  | none => .error .invalidTextRepresentation
  | some n =>
    if n < -32768 ∨ n > 32767 then .error .invalidTextRepresentation
    else .ok n

/-- The segment-override loop of CreateTableSpace (lines 277-317): walk the
options; a defname strictly longer than "content" and starting with it
carries a content id.  On a dispatch-role coordinator the id is validated
against the segment count (syntax error when out of range) and the loop
continues; on a segment, a matching id selects that option's argument as
the location and breaks.  Any other defname is a syntax error.  Returns
the selected override location, if any. -/
def resolveSegmentLocation (gpRole : GpRole) (segCount segindex : Int) :
    List (String × String) → Except PGError (Option String)
  | [] => .ok none
  | (defname, arg) :: rest =>
    if defname.length > 7 ∧ List.isPrefixOf "content".data defname.data then
      match pg_atoi16 (defname.drop 7) with
      | .error e => .error e
      | .ok contentId =>
        if gpRole = .dispatch then
          if contentId < 0 ∨ contentId ≥ segCount then .error .syntaxError
          else resolveSegmentLocation gpRole segCount segindex rest
        else if contentId = segindex then .ok (some arg)
        else resolveSegmentLocation gpRole segCount segindex rest
    else .error .syntaxError

/-- Everything CreateTableSpace produces: the result (the new tablespace
oid on success), the catalog as observable after the transaction
(unchanged when the transaction aborts), the filesystem state (partial
directory mutations persist on abort), whether the create WAL record was
inserted, and the dispatched statement's flags. -/
structure CreateOutcome where
  result : Except PGError Nat
  catalog : List TsRow
  fs : TsFs
  walCreateLogged : Bool
  dispatchedFlags : Option DispatchFlags
  deriving Repr

/-- Model of `CreateTableSpace(stmt)` (lines 249-471).  `versionDirName` is
`tablespace_version_directory()` (it only enters the length check);
`reloptionsOk` stands for the external
`transformRelOptions`/`tablespace_reloptions` validation; `newOid` is the
oid the catalog insert assigns.  Control flow as in the source: superuser
check; owner defaults to the current user; resolve any segment-level
location override; canonicalize; reject a location containing a single
quote (invalidName); reject a relative location
(invalidObjectDefinition); reject an over-long location
(invalidObjectDefinition); reject a reserved name unless
`allowSystemTableMods` (reservedName); reject a name already in use
(duplicateObject); insert the catalog row; validate options; create the
physical directories (failure aborts, rolling the insert back); WAL-log;
force synchronous commit; on a dispatch-role coordinator dispatch with
`createDispatchFlags`. -/
def CreateTableSpace (ctx : SessionCtx) (stmt : CreateTableSpaceStmt)
    (versionDirName : String) (reloptionsOk : Bool) (newOid : Nat)
    (catalog : List TsRow) (fs : TsFs) : CreateOutcome :=
  if ¬ ctx.isSuper then
    { result := .error .insufficientPrivilege, catalog := catalog, fs := fs,
      walCreateLogged := false, dispatchedFlags := none }
  else
    match resolveSegmentLocation ctx.gpRole ctx.segCount ctx.segindex stmt.options with
    | .error e =>
      { result := .error e, catalog := catalog, fs := fs,
        walCreateLogged := false, dispatchedFlags := none }
    | .ok override =>
      let location := canonicalize_path (override.getD stmt.location)
      if location.data.contains singleQuote then
        { result := .error .invalidName, catalog := catalog, fs := fs,
          walCreateLogged := false, dispatchedFlags := none }
      else if ¬ is_absolute_path location then
        { result := .error .invalidObjectDefinition, catalog := catalog,
          fs := fs, walCreateLogged := false, dispatchedFlags := none }
      else if location.length + 1 + versionDirName.length + 1 + OIDCHARS + 1 +
              OIDCHARS + 1 + FORKNAMECHARS + 1 + OIDCHARS > MAXPGPATH then
        { result := .error .invalidObjectDefinition, catalog := catalog,
          fs := fs, walCreateLogged := false, dispatchedFlags := none }
      else if ¬ ctx.allowSystemTableMods ∧ IsReservedName stmt.tablespacename then
        { result := .error .reservedName, catalog := catalog, fs := fs,
          walCreateLogged := false, dispatchedFlags := none }
      else if (catalog.find? (fun r => r.name = stmt.tablespacename)).isSome then
        { result := .error .duplicateObject, catalog := catalog, fs := fs,
          walCreateLogged := false, dispatchedFlags := none }
      else if ¬ reloptionsOk then
        { result := .error .invalidParameterValue, catalog := catalog,
          fs := fs, walCreateLogged := false, dispatchedFlags := none }
      else
        let ownerId := stmt.owner.getD ctx.userId
        let catalogAfterInsert :=
          catalog ++ [{ oid := newOid, name := stmt.tablespacename,
                        owner := ownerId }]
        match create_tablespace_directories false location fs with
        | (.error e, fs') =>
          { result := .error e, catalog := catalog, fs := fs',
            walCreateLogged := false, dispatchedFlags := none }
        | (.ok _, fs') =>
          { result := .ok newOid, catalog := catalogAfterInsert, fs := fs',
            walCreateLogged := true,
            dispatchedFlags :=
              if ctx.gpRole = .dispatch then some createDispatchFlags
              else none }

/-! Section: Default and temporary tablespace resolution. -/

/-- RELPERSISTENCE_TEMP. -/
def RELPERSISTENCE_TEMP : Char := 't'

/-- Model of `GetDefaultTablespace(relpersistence)` (lines 1381-1413).
`default_tablespace` is the GUC value (none models a NULL pointer);
`tempSpc` is what the temp-tablespace round-robin
(`PrepareTempTablespaces` + `GetNextTempTableSpace`) yields, to which the
temp case delegates entirely.  For other persistence: the unset/empty GUC
fast path yields InvalidOid; otherwise the name is looked up with
missing_ok = true (so an unresolvable name silently yields InvalidOid),
and a result equal to `MyDatabaseTableSpace` is collapsed to InvalidOid. -/
def GetDefaultTablespace (relpersistence : Char)
    (default_tablespace : Option String) (catalog : List TsRow)
    (myDatabaseTableSpace : Nat) (tempSpc : Nat) : Except PGError Nat :=
  if relpersistence = RELPERSISTENCE_TEMP then .ok tempSpc
  else
    match default_tablespace with
    | none => .ok InvalidOid
    | some s =>
      if s = "" then .ok InvalidOid
      else
        match get_tablespace_oid catalog s true with
        | .error e => .error e
        | .ok result =>
          .ok (if result = myDatabaseTableSpace then InvalidOid else result)

/-- Messages a call can emit below ERROR severity. -/
inductive PGMessage where
  | notice
  | warning
  deriving DecidableEq, Repr

/-- The per-entry body of the PrepareTempTablespaces loop (lines
1597-1635): an empty entry stands for the database default (sentinel
InvalidOid); a name that does not resolve (get_tablespace_oid with
missing_ok = true returning InvalidOid) is skipped; a name resolving to
`MyDatabaseTableSpace` collapses to the sentinel without a permission
check; a tablespace the user lacks CREATE privilege on is skipped;
otherwise the entry contributes its oid.  `acl` is the external
`pg_tablespace_aclcheck(oid, userId, ACL_CREATE) = ACLCHECK_OK`
predicate.  Returns the entry's contribution to the list, none when
skipped. -/
def assignTempTablespaceOid (catalog : List TsRow)
    (myDatabaseTableSpace : Nat) (acl : Nat → Bool) (curname : String) :
    Option Nat :=
  if curname = "" then some InvalidOid
  else
    match get_tablespace_oid catalog curname true with
    | .error _ => none
    | .ok curoid =>
      if curoid = InvalidOid then none
      else if curoid = myDatabaseTableSpace then some InvalidOid
      else if acl curoid then some curoid
      else none

/-- Model of `PrepareTempTablespaces()` (lines 1557-1641).  The fd.c
temp-tablespace
list is modelled explicitly: `current` is its value on entry (none = not
set this transaction), and the first result component its value on exit.
`alreadySet` is `TempTablespacesAreSet()`, `inTransaction` is
`IsTransactionState()`, and `namelist` is the output of the external
`SplitIdentifierString` on the temp_tablespaces GUC (none models a syntax
error, in which case the code sets an empty list).  The second result
component collects every notice/warning the call emits: the source emits
none — bad entries are skipped silently by the loop. -/
def PrepareTempTablespaces (alreadySet : Bool) (inTransaction : Bool)
    (namelist : Option (List String)) (catalog : List TsRow)
    (myDatabaseTableSpace : Nat) (acl : Nat → Bool)
    (current : Option (List Nat)) : Option (List Nat) × List PGMessage :=
  if alreadySet then (current, [])
  else if ¬ inTransaction then (current, [])
  else
    match namelist with
    | none => (some [], [])
    | some names =>
      (some (names.filterMap
               (assignTempTablespaceOid catalog myDatabaseTableSpace acl)),
       [])

/-! Section: TablespaceCreateDbspace. -/

/-- What `stat`/`lstat` can report about a path in this model. -/
inductive PathState where
  | missing
  | isDir
  | isFile
  deriving DecidableEq, Repr

/-- Filesystem neighborhood of one per-database directory
`<pg_tblspc/spcoid/version_dir>/<dboid>`: the directory itself and the
existence of its parent and grandparent (which WAL replay may need to
create). -/
structure DbspaceFs where
  dir : PathState
  parentExists : Bool
  grandparentExists : Bool
  deriving DecidableEq, Repr

/-- Model of `TablespaceCreateDbspace(spcNode, dbNode, isRedo)` (lines
132-240).
Returns (result, filesystem state, number of TablespaceCreateLock
acquisitions).  The global tablespace has no per-database subdirectories,
so that case returns immediately — no stat, no lock, no mkdir.  Otherwise:
an existing directory falls through quietly; an existing non-directory is
a wrong-object-type error; a missing directory is created under the lock
(in this single-session model the post-lock recheck still finds it
missing), where a missing parent (mkdir ENOENT) is an error outside
replay and is handled during replay by creating the two parent levels
first. -/
def TablespaceCreateDbspace (spcNode dbNode : Nat) (isRedo : Bool)
    (st : DbspaceFs) : Except PGError Unit × DbspaceFs × Nat :=
  if spcNode = GLOBALTABLESPACE_OID then (.ok (), st, 0)
  else
    match st.dir with
    | .isDir => (.ok (), st, 0)
    | .isFile => (.error .wrongObjectType, st, 0)
    | .missing =>
      if st.parentExists then (.ok (), { st with dir := .isDir }, 1)
      else if ¬ isRedo then (.error .fileAccess, st, 1)
      else
        (.ok (),
         { st with grandparentExists := true, parentExists := true,
                   dir := .isDir }, 1)

/-! Section: WAL records and replay. -/

/-- Payload `xl_tblspc_create_rec`: tablespace oid and the absolute
location path
(written with its trailing NUL). -/
structure XlTblspcCreateRec where
  ts_id : Nat
  ts_path : String
  deriving DecidableEq, Repr

/-- Payload `xl_tblspc_drop_rec`: tablespace oid only. -/
structure XlTblspcDropRec where
  ts_id : Nat
  deriving DecidableEq, Repr

/-- The two WAL record kinds owned by the tablespace resource manager. -/
inductive TblspcWalRecord where
  | create (rec : XlTblspcCreateRec)
  | drop (rec : XlTblspcDropRec)
  deriving DecidableEq, Repr

/-- Trace of one `tblspc_redo` invocation: the resulting filesystem state
for the record's tablespace, the `redo` argument of each
`destroy_tablespace_directories` call in order, the number of
`ResolveRecoveryConflictWithTablespace` calls, whether the
could-not-remove LOG message was emitted, and the result (an error aborts
recovery). -/
structure RedoOutcome where
  fs : TsFs
  destroyCalls : List Bool
  conflictResolutions : Nat
  loggedNotRemoved : Bool
  result : Except PGError Unit
  deriving Repr

/-- Model of `tblspc_redo(record)` (lines 1780-1836).  A create record
replays via
`create_tablespace_directories` with `InRecovery` true.  A drop record
calls `destroy_tablespace_directories(id, true)`; only if that returns
false does replay call `ResolveRecoveryConflictWithTablespace` (modelled
as the external `resolveConflict` effect on the filesystem) and retry
exactly once; a second false is only LOGged and replay continues without
error. -/
def tblspc_redo (record : TblspcWalRecord) (fs : TsFs)
    (resolveConflict : TsFs → TsFs) : RedoOutcome :=
  match record with
  | .create rec =>
    let (res, fs') := create_tablespace_directories true rec.ts_path fs
    { fs := fs', destroyCalls := [], conflictResolutions := 0,
      loggedNotRemoved := false, result := res }
  | .drop _ =>
    let (ok1, fs1) := destroy_tablespace_directories true fs
    if ok1 then
      { fs := fs1, destroyCalls := [true], conflictResolutions := 0,
        loggedNotRemoved := false, result := .ok () }
    else
      let fs2 := resolveConflict fs1
      let (ok2, fs3) := destroy_tablespace_directories true fs2
      { fs := fs3, destroyCalls := [true, true], conflictResolutions := 1,
        loggedNotRemoved := ¬ ok2, result := .ok () }

/-! Section: Claim theorems. -/

/-- Claim C10: for every database id and every value of the redo flag,
`TablespaceCreateDbspace` invoked with the global tablespace id returns
immediately without creating any directory (the filesystem state is
unchanged) or acquiring any lock: the global tablespace never has
per-database subdirectories. -/
theorem C10_global_dbspace_noop (dbNode : Nat) (isRedo : Bool)
    (st : DbspaceFs) :
    TablespaceCreateDbspace GLOBALTABLESPACE_OID dbNode isRedo st =
      (.ok (), st, 0) := by
  simp [TablespaceCreateDbspace]

/-- Claim C7: for every (location, id), `create_tablespace_directories`
outside recovery fails with the object-in-use error when the versioned
subdirectory under the location already exists (whatever its contents and
whatever the state of the pg_tblspc link), leaving the filesystem
untouched; this is the mechanism that prevents two tablespaces from
aliasing the same physical location. -/
theorem C7_create_directories_already_in_use (location : String)
    (subs : List DbSubdir) (link : LinkState) :
    create_tablespace_directories false location
        { chmodOutcome := .ok, versionDir := some subs, link := link } =
      (.error .objectInUse,
       { chmodOutcome := .ok, versionDir := some subs, link := link }) := by
  simp [create_tablespace_directories]

/-- Claim C4: replaying a Create WAL record during recovery against a
filesystem where the versioned subdirectory already exists (with any
contents, and with any stale state of the pg_tblspc link) does not raise
an error, and the resulting filesystem state equals the state produced by
a single apply on a clean filesystem: redo is idempotent. -/
theorem C4_redo_create_idempotent (id : Nat) (location : String)
    (subs : List DbSubdir) (link : LinkState)
    (resolveConflict : TsFs → TsFs) :
    tblspc_redo (.create { ts_id := id, ts_path := location })
        { chmodOutcome := .ok, versionDir := some subs, link := link }
        resolveConflict =
      { fs := { chmodOutcome := .ok, versionDir := some [],
                link := .symlinkTo location },
        destroyCalls := [], conflictResolutions := 0,
        loggedNotRemoved := false, result := .ok () } ∧
    tblspc_redo (.create { ts_id := id, ts_path := location })
        { chmodOutcome := .ok, versionDir := none, link := .absent }
        resolveConflict =
      { fs := { chmodOutcome := .ok, versionDir := some [],
                link := .symlinkTo location },
        destroyCalls := [], conflictResolutions := 0,
        loggedNotRemoved := false, result := .ok () } := by
  constructor <;> simp [tblspc_redo, create_tablespace_directories]

/-- Claim C5: for every Drop WAL record, replay calls
`destroy_tablespace_directories` with redo = true; if and only if that
call returns false does replay invoke the recovery-conflict resolver and
retry exactly once more (so the destroy call count is one or two, each
call with redo = true); a second false result is only logged and replay
continues without raising an error, so Drop-record replay never aborts
recovery. -/
theorem C5_redo_drop_never_aborts (rec : XlTblspcDropRec) (fs : TsFs)
    (resolveConflict : TsFs → TsFs) :
    (tblspc_redo (.drop rec) fs resolveConflict).result = .ok () ∧
    (tblspc_redo (.drop rec) fs resolveConflict).destroyCalls =
      (if (destroy_tablespace_directories true fs).1 then [true]
       else [true, true]) ∧
    ((tblspc_redo (.drop rec) fs resolveConflict).conflictResolutions = 1 ↔
      (destroy_tablespace_directories true fs).1 = false) ∧
    ((tblspc_redo (.drop rec) fs resolveConflict).loggedNotRemoved = true ↔
      (destroy_tablespace_directories true fs).1 = false ∧
      (destroy_tablespace_directories true
        (resolveConflict (destroy_tablespace_directories true fs).2)).1 =
        false) := by
  cases h1 : destroy_tablespace_directories true fs with
  | mk ok1 fs1 =>
    cases ok1 with
    | false =>
      cases h2 : destroy_tablespace_directories true (resolveConflict fs1) with
      | mk ok2 fs3 => cases ok2 <;> simp [tblspc_redo, h1, h2]
    | true => simp [tblspc_redo, h1]

/-- Claim C1: for every DropTableSpace call in normal (non-redo) operation
that reaches directory destruction and whose first
`destroy_tablespace_directories` call returns false, the operation
requests exactly one immediate (forced, waited-for) checkpoint and retries
the destruction exactly once (two destroy calls in total); if the retry
still reports non-empty, the operation fails with the "tablespace is not
empty" error and the catalog row deletion rolls back, leaving the catalog
unchanged as observed externally. -/
theorem C1_drop_checkpoint_retry (catalog : List TsRow) (userId : Nat)
    (isSuper : Bool) (gpRole : GpRole) (stmt : DropTableSpaceStmt)
    (fs : TsFs) (checkpoint : TsFs → TsFs) (row : TsRow)
    (hfind : catalog.find? (fun r => r.name = stmt.tablespacename) = some row)
    (hown : ownercheck isSuper userId row = true)
    (hbuiltin : ¬(row.oid = GLOBALTABLESPACE_OID ∨
                  row.oid = DEFAULTTABLESPACE_OID))
    (hfail : (destroy_tablespace_directories false fs).1 = false) :
    (DropTableSpace catalog userId isSuper gpRole stmt fs
        checkpoint).checkpointRequests = [dropCheckpointRequest] ∧
    dropCheckpointRequest.immediate = true ∧
    (DropTableSpace catalog userId isSuper gpRole stmt fs
        checkpoint).destroyCalls = 2 ∧
    ((destroy_tablespace_directories false
        (checkpoint (destroy_tablespace_directories false fs).2)).1 = false →
      (DropTableSpace catalog userId isSuper gpRole stmt fs
          checkpoint).result = .error .objectNotInPrerequisiteState ∧
      (DropTableSpace catalog userId isSuper gpRole stmt fs
          checkpoint).catalog = catalog) := by
  cases h1 : destroy_tablespace_directories false fs with
  | mk ok1 fs1 =>
    rw [h1] at hfail
    simp only [Prod.fst] at hfail
    subst hfail
    cases h2 : destroy_tablespace_directories false (checkpoint fs1) with
    | mk ok2 fs3 =>
      cases ok2 <;>
        simp [DropTableSpace, hfind, hown, hbuiltin, h1, h2,
              dropCheckpointRequest]

/-- Witness for C1: a tablespace whose versioned directory holds one
non-empty per-database subdirectory, with a checkpoint that does not clean
it: the drop issues one immediate checkpoint, calls the destroyer twice,
fails with the not-empty error, and the catalog keeps the row. -/
theorem C1_drop_checkpoint_retry_witness :
    (DropTableSpace [{ oid := 9001, name := "spc1", owner := 7 }] 7 false
        .utility { tablespacename := "spc1", missing_ok := false }
        { chmodOutcome := .ok, versionDir := some [("16384", ["relfile"])],
          link := .symlinkTo "/data/ts1" } id).checkpointRequests =
      [dropCheckpointRequest] ∧
    (DropTableSpace [{ oid := 9001, name := "spc1", owner := 7 }] 7 false
        .utility { tablespacename := "spc1", missing_ok := false }
        { chmodOutcome := .ok, versionDir := some [("16384", ["relfile"])],
          link := .symlinkTo "/data/ts1" } id).destroyCalls = 2 ∧
    (DropTableSpace [{ oid := 9001, name := "spc1", owner := 7 }] 7 false
        .utility { tablespacename := "spc1", missing_ok := false }
        { chmodOutcome := .ok, versionDir := some [("16384", ["relfile"])],
          link := .symlinkTo "/data/ts1" } id).result =
      .error .objectNotInPrerequisiteState ∧
    (DropTableSpace [{ oid := 9001, name := "spc1", owner := 7 }] 7 false
        .utility { tablespacename := "spc1", missing_ok := false }
        { chmodOutcome := .ok, versionDir := some [("16384", ["relfile"])],
          link := .symlinkTo "/data/ts1" } id).catalog =
      [{ oid := 9001, name := "spc1", owner := 7 }] := by
  have h := C1_drop_checkpoint_retry
    [{ oid := 9001, name := "spc1", owner := 7 }] 7 false .utility
    { tablespacename := "spc1", missing_ok := false }
    { chmodOutcome := .ok, versionDir := some [("16384", ["relfile"])],
      link := .symlinkTo "/data/ts1" } id
    { oid := 9001, name := "spc1", owner := 7 }
    (by decide) (by decide) (by decide) (by decide)
  exact ⟨h.1, h.2.2.1, (h.2.2.2 (by decide)).1, (h.2.2.2 (by decide)).2⟩

/-- Counterexample to claim C2: `RenameTableSpace` has no reserved-id check
on the tablespace being renamed.  With pg_global (the global tablespace,
oid 1664) in the catalog and a superuser caller, renaming it to an
unreserved fresh name succeeds and rewrites the catalog row, where the
claim says the rename must fail. -/
theorem C2_rename_reserved_counterexample :
    (RenameTableSpace
        [{ oid := 1664, name := "pg_global", owner := 10 },
         { oid := 1663, name := "pg_default", owner := 10 }]
        10 true false "pg_global" "ts_renamed").1 = .ok 1664 ∧
    (RenameTableSpace
        [{ oid := 1664, name := "pg_global", owner := 10 },
         { oid := 1663, name := "pg_default", owner := 10 }]
        10 true false "pg_global" "ts_renamed").2 =
      [{ oid := 1664, name := "ts_renamed", owner := 10 },
       { oid := 1663, name := "pg_default", owner := 10 }] :=
  ⟨rfl, rfl⟩

/-- Claim C2 as amended: DropTableSpace on either reserved built-in
tablespace id fails with a privilege error even for a superuser, leaving
catalog and filesystem untouched; RenameTableSpace, however, performs no
reserved-id check on the old tablespace — it enforces only existence,
ownership, the reserved-prefix check on the new name, and new-name
uniqueness — so a rename whose old name resolves to a reserved id succeeds
whenever those checks pass. -/
theorem C2_reserved_drop_rename (catalog : List TsRow) (userId : Nat)
    (gpRole : GpRole) (stmt : DropTableSpaceStmt) (fs : TsFs)
    (checkpoint : TsFs → TsFs) (row : TsRow) (isSuper asm : Bool)
    (oldname newname : String)
    (hfind : catalog.find? (fun r => r.name = stmt.tablespacename) = some row)
    (hbuiltin : row.oid = GLOBALTABLESPACE_OID ∨
                row.oid = DEFAULTTABLESPACE_OID)
    (hfind2 : catalog.find? (fun r => r.name = oldname) = some row)
    (hown : ownercheck isSuper userId row = true)
    (hnewres : IsReservedName newname = false)
    (hnewfree : (catalog.find? (fun r => r.name = newname)).isSome = false) :
    (DropTableSpace catalog userId true gpRole stmt fs checkpoint).result =
      .error .aclNoPriv ∧
    (DropTableSpace catalog userId true gpRole stmt fs checkpoint).catalog =
      catalog ∧
    (DropTableSpace catalog userId true gpRole stmt fs checkpoint).fs = fs ∧
    (RenameTableSpace catalog userId isSuper asm oldname newname).1 =
      .ok row.oid := by
  refine ⟨?_, ?_, ?_, ?_⟩
  · simp [DropTableSpace, hfind, hbuiltin, ownercheck]
  · simp [DropTableSpace, hfind, hbuiltin, ownercheck]
  · simp [DropTableSpace, hfind, hbuiltin, ownercheck]
  · simp [RenameTableSpace, hfind2, hown, hnewres, hnewfree]

/-- Witness for C2 as amended: even a superuser cannot drop pg_global, and
the same superuser can rename it. -/
theorem C2_reserved_drop_rename_witness :
    (DropTableSpace
        [{ oid := 1664, name := "pg_global", owner := 10 }] 10 true .utility
        { tablespacename := "pg_global", missing_ok := false }
        { chmodOutcome := .ok, versionDir := none, link := .absent }
        id).result = .error .aclNoPriv ∧
    (RenameTableSpace [{ oid := 1664, name := "pg_global", owner := 10 }]
        10 true false "pg_global" "ts_renamed").1 = .ok 1664 := by
  have h := C2_reserved_drop_rename
    [{ oid := 1664, name := "pg_global", owner := 10 }] 10 .utility
    { tablespacename := "pg_global", missing_ok := false }
    { chmodOutcome := .ok, versionDir := none, link := .absent } id
    { oid := 1664, name := "pg_global", owner := 10 } true false
    "pg_global" "ts_renamed"
    (by decide) (by decide) (by decide) (by decide) (by decide) (by decide)
  exact ⟨h.1, h.2.2.2⟩

/-- Counterexample to claim C3: a successful DropTableSpace on a
dispatch-role coordinator dispatches the statement with the two-phase
commit flag set (`DF_NEED_TWO_PHASE`), where the claim says the drop
dispatch does not require two-phase commit. -/
theorem C3_drop_dispatch_two_phase_counterexample :
    (DropTableSpace [{ oid := 9001, name := "spc1", owner := 7 }] 7 false
        .dispatch { tablespacename := "spc1", missing_ok := false }
        { chmodOutcome := .ok, versionDir := some [], link := .symlinkTo "/d" }
        id).dispatchedFlags =
      some { cancelOnError := true, withSnapshot := true,
             needTwoPhase := true } := by
  decide

/-- Claim C3 as amended: when running as a coordinator (dispatch role), a
successful DropTableSpace dispatches the identical statement to all
workers with cancel-on-error, snapshot propagation, AND two-phase commit —
the very same flag set CreateTableSpace uses; no other path of
DropTableSpace dispatches. -/
theorem C3_drop_dispatch_flags (catalog : List TsRow) (userId : Nat)
    (isSuper : Bool) (gpRole : GpRole) (stmt : DropTableSpaceStmt)
    (fs : TsFs) (checkpoint : TsFs → TsFs) :
    ((DropTableSpace catalog userId isSuper gpRole stmt fs
        checkpoint).dispatchedFlags = some dropDispatchFlags ↔
      gpRole = .dispatch ∧
      (DropTableSpace catalog userId isSuper gpRole stmt fs
        checkpoint).result = .ok true) ∧
    ((DropTableSpace catalog userId isSuper gpRole stmt fs
        checkpoint).dispatchedFlags = some dropDispatchFlags ∨
     (DropTableSpace catalog userId isSuper gpRole stmt fs
        checkpoint).dispatchedFlags = none) ∧
    dropDispatchFlags = createDispatchFlags ∧
    dropDispatchFlags =
      { cancelOnError := true, withSnapshot := true, needTwoPhase := true } := by
  refine ⟨?_, ?_, rfl, rfl⟩ <;>
  cases hfind : catalog.find? (fun r => r.name = stmt.tablespacename) with
  | none =>
    cases hmo : stmt.missing_ok <;> simp [DropTableSpace, hfind, hmo]
  | some row =>
    by_cases hown : ownercheck isSuper userId row
    · by_cases hbuiltin : row.oid = GLOBALTABLESPACE_OID ∨
                          row.oid = DEFAULTTABLESPACE_OID
      · simp [DropTableSpace, hfind, hown, hbuiltin]
      · cases h1 : destroy_tablespace_directories false fs with
        | mk ok1 fs1 =>
          cases ok1 with
          | true =>
            by_cases hrole : gpRole = .dispatch <;>
              simp [DropTableSpace, hfind, hown, hbuiltin, h1, hrole]
          | false =>
            cases h2 : destroy_tablespace_directories false (checkpoint fs1) with
            | mk ok2 fs3 =>
              cases ok2 <;> by_cases hrole : gpRole = .dispatch <;>
                simp [DropTableSpace, hfind, hown, hbuiltin, h1, h2, hrole]
    · simp [DropTableSpace, hfind, hown]

/-- Claim C6: for every CreateTableSpace call (by a superuser, with no
segment override selected) whose effective location canonicalizes to a
path containing a single quote, or to a relative path, or whose
tablespace name starts with the reserved system prefix without the
system-table-mods override, the operation fails with the corresponding
error — invalidName or invalidObjectDefinition (the code's two
representatives of the spec's InvalidPath) or reservedName — before any
catalog row is inserted: the catalog, the filesystem and the WAL are all
untouched. -/
theorem C6_create_validation (ctx : SessionCtx)
    (stmt : CreateTableSpaceStmt) (versionDirName : String)
    (reloptionsOk : Bool) (newOid : Nat) (catalog : List TsRow) (fs : TsFs)
    (hsup : ctx.isSuper = true)
    (hloc : resolveSegmentLocation ctx.gpRole ctx.segCount ctx.segindex
              stmt.options = .ok none) :
    (singleQuote ∈ (canonicalize_path stmt.location).data →
      (CreateTableSpace ctx stmt versionDirName reloptionsOk newOid catalog
        fs).result = .error .invalidName ∧
      (CreateTableSpace ctx stmt versionDirName reloptionsOk newOid catalog
        fs).catalog = catalog ∧
      (CreateTableSpace ctx stmt versionDirName reloptionsOk newOid catalog
        fs).fs = fs ∧
      (CreateTableSpace ctx stmt versionDirName reloptionsOk newOid catalog
        fs).walCreateLogged = false) ∧
    (singleQuote ∉ (canonicalize_path stmt.location).data →
      is_absolute_path (canonicalize_path stmt.location) = false →
      (CreateTableSpace ctx stmt versionDirName reloptionsOk newOid catalog
        fs).result = .error .invalidObjectDefinition ∧
      (CreateTableSpace ctx stmt versionDirName reloptionsOk newOid catalog
        fs).catalog = catalog ∧
      (CreateTableSpace ctx stmt versionDirName reloptionsOk newOid catalog
        fs).fs = fs ∧
      (CreateTableSpace ctx stmt versionDirName reloptionsOk newOid catalog
        fs).walCreateLogged = false) ∧
    (singleQuote ∉ (canonicalize_path stmt.location).data →
      is_absolute_path (canonicalize_path stmt.location) = true →
      (canonicalize_path stmt.location).length + 1 + versionDirName.length +
          1 + OIDCHARS + 1 + OIDCHARS + 1 + FORKNAMECHARS + 1 + OIDCHARS ≤
        MAXPGPATH →
      ctx.allowSystemTableMods = false →
      IsReservedName stmt.tablespacename = true →
      (CreateTableSpace ctx stmt versionDirName reloptionsOk newOid catalog
        fs).result = .error .reservedName ∧
      (CreateTableSpace ctx stmt versionDirName reloptionsOk newOid catalog
        fs).catalog = catalog ∧
      (CreateTableSpace ctx stmt versionDirName reloptionsOk newOid catalog
        fs).fs = fs ∧
      (CreateTableSpace ctx stmt versionDirName reloptionsOk newOid catalog
        fs).walCreateLogged = false) := by
  refine ⟨fun hq => ?_, fun hq habs => ?_, fun hq habs hlen hmods hres => ?_⟩
  · simp [CreateTableSpace, hsup, hloc, hq]
  · simp [CreateTableSpace, hsup, hloc, hq, habs]
  · have hlen' : ¬ (MAXPGPATH <
        (canonicalize_path stmt.location).length + 1 + versionDirName.length +
          1 + OIDCHARS + 1 + OIDCHARS + 1 + FORKNAMECHARS + 1 + OIDCHARS) :=
      Nat.not_lt.mpr hlen
    simp [CreateTableSpace, hsup, hloc, hq, habs, hlen', hmods, hres]

/-- Witness for C6: a superuser create with a relative location
("rel/path") fails with the invalid-object-definition error and mutates
nothing. -/
theorem C6_create_validation_witness :
    (CreateTableSpace
        { userId := 7, isSuper := true, allowSystemTableMods := false,
          gpRole := .utility, segCount := 0, segindex := 0,
          myDatabaseTableSpace := 1663 }
        { tablespacename := "myspace", owner := none,
          location := "rel/path", options := [] }
        "GPDB_6_301908232_db1" true 9001 []
        { chmodOutcome := .ok, versionDir := none,
          link := .absent }).result = .error .invalidObjectDefinition ∧
    (CreateTableSpace
        { userId := 7, isSuper := true, allowSystemTableMods := false,
          gpRole := .utility, segCount := 0, segindex := 0,
          myDatabaseTableSpace := 1663 }
        { tablespacename := "myspace", owner := none,
          location := "rel/path", options := [] }
        "GPDB_6_301908232_db1" true 9001 []
        { chmodOutcome := .ok, versionDir := none,
          link := .absent }).catalog = [] := by
  have h := C6_create_validation
    { userId := 7, isSuper := true, allowSystemTableMods := false,
      gpRole := .utility, segCount := 0, segindex := 0,
      myDatabaseTableSpace := 1663 }
    { tablespacename := "myspace", owner := none,
      location := "rel/path", options := [] }
    "GPDB_6_301908232_db1" true 9001 []
    { chmodOutcome := .ok, versionDir := none, link := .absent }
    (by decide) (by rfl)
  exact ⟨(h.2.1 (by decide) (by decide)).1, (h.2.1 (by decide) (by decide)).2.1⟩

/-- Counterexample to claim C8: an entry of the temp-tablespaces list that
fails to resolve is skipped by `PrepareTempTablespaces` without any
message at all — the emitted-message trace is empty, where the claim says
the skip comes "with only a notice". -/
theorem C8_silent_skip_counterexample :
    PrepareTempTablespaces false true (some ["no_such_spc"]) [] 1663
        (fun _ => false) none = (some [], []) := by
  decide

/-- Claim C8 as amended: `PrepareTempTablespaces` is a no-op if the
temp-tablespace list is already set in the current transaction; otherwise
(inside a transaction, with the configuration value parsing into a name
list) it resolves the list into an ordered list of ids in which every
empty entry and every entry naming the database's own default tablespace
becomes the sentinel InvalidOid, and every entry that fails to resolve to
an existing tablespace or on which the caller lacks create privilege is
skipped silently — no notice and no error is ever emitted. -/
theorem C8_prepare_temp_tablespaces (alreadySet inTransaction : Bool)
    (namelist : Option (List String)) (catalog : List TsRow) (myDb : Nat)
    (acl : Nat → Bool) (current : Option (List Nat)) (n : String)
    (r : TsRow) :
    (alreadySet = true →
      PrepareTempTablespaces alreadySet inTransaction namelist catalog myDb
        acl current = (current, [])) ∧
    (PrepareTempTablespaces alreadySet inTransaction namelist catalog myDb
        acl current).2 = [] ∧
    (alreadySet = false → inTransaction = true → ∀ names,
      namelist = some names →
      (PrepareTempTablespaces alreadySet inTransaction namelist catalog myDb
          acl current).1 =
        some (names.filterMap (assignTempTablespaceOid catalog myDb acl))) ∧
    assignTempTablespaceOid catalog myDb acl "" = some InvalidOid ∧
    (catalog.find? (fun t => t.name = n) = none → n ≠ "" →
      assignTempTablespaceOid catalog myDb acl n = none) ∧
    (catalog.find? (fun t => t.name = n) = some r → n ≠ "" →
      r.oid ≠ InvalidOid → r.oid = myDb →
      assignTempTablespaceOid catalog myDb acl n = some InvalidOid) ∧
    (catalog.find? (fun t => t.name = n) = some r → n ≠ "" →
      r.oid ≠ InvalidOid → r.oid ≠ myDb → acl r.oid = false →
      assignTempTablespaceOid catalog myDb acl n = none) ∧
    (catalog.find? (fun t => t.name = n) = some r → n ≠ "" →
      r.oid ≠ InvalidOid → r.oid ≠ myDb → acl r.oid = true →
      assignTempTablespaceOid catalog myDb acl n = some r.oid) := by
  refine ⟨fun hset => ?_, ?_, fun hset htx names hnl => ?_, ?_,
          fun hfind hne => ?_, fun hfind hne hnz hdb => ?_,
          fun hfind hne hnz hdb hacl => ?_, fun hfind hne hnz hdb hacl => ?_⟩
  · simp [PrepareTempTablespaces, hset]
  · cases alreadySet <;> cases inTransaction <;>
      cases namelist <;> simp [PrepareTempTablespaces]
  · subst hnl
    simp [PrepareTempTablespaces, hset, htx]
  · simp [assignTempTablespaceOid]
  · simp [assignTempTablespaceOid, get_tablespace_oid, hfind, hne]
  · have hmdb : ¬ myDb = InvalidOid := hdb ▸ hnz
    simp [assignTempTablespaceOid, get_tablespace_oid, hfind, hne, hnz, hdb,
          hmdb]
  · simp [assignTempTablespaceOid, get_tablespace_oid, hfind, hne, hnz, hdb,
          hacl]
  · simp [assignTempTablespaceOid, get_tablespace_oid, hfind, hne, hnz, hdb,
          hacl]

/-- Witness for C8 as amended: the list '"" , spc_a, spc_b, spc_gone'
against a catalog where spc_a (oid 5, privileged) exists, spc_b is the
database default (oid 2), and spc_gone is unknown resolves to
[sentinel, 5, sentinel] with no message emitted. -/
theorem C8_prepare_temp_tablespaces_witness :
    (PrepareTempTablespaces false true (some ["", "spc_a", "spc_b", "spc_gone"])
        [{ oid := 5, name := "spc_a", owner := 1 },
         { oid := 2, name := "spc_b", owner := 1 }] 2
        (fun o => o = 5) none).1 = some [InvalidOid, 5, InvalidOid] ∧
    (PrepareTempTablespaces false true (some ["", "spc_a", "spc_b", "spc_gone"])
        [{ oid := 5, name := "spc_a", owner := 1 },
         { oid := 2, name := "spc_b", owner := 1 }] 2
        (fun o => o = 5) none).2 = [] := by
  have h := C8_prepare_temp_tablespaces false true
    (some ["", "spc_a", "spc_b", "spc_gone"])
    [{ oid := 5, name := "spc_a", owner := 1 },
     { oid := 2, name := "spc_b", owner := 1 }] 2
    (fun o => o = 5) none "spc_gone" { oid := 5, name := "spc_a", owner := 1 }
  refine ⟨?_, h.2.1⟩
  rw [h.2.2.1 rfl rfl ["", "spc_a", "spc_b", "spc_gone"] rfl]
  decide

/-- Claim C9: for non-temporary persistence, `GetDefaultTablespace` never
raises a missing-tablespace error: when the configured default_tablespace
name does not resolve to any existing tablespace it silently yields the
sentinel InvalidOid, just as it does when the setting is unset (or empty)
or names the database's own default tablespace. -/
theorem C9_default_tablespace_silent (relpersistence : Char)
    (catalog : List TsRow) (myDb tempSpc : Nat) (s : String) (r : TsRow)
    (hp : relpersistence ≠ RELPERSISTENCE_TEMP) :
    GetDefaultTablespace relpersistence none catalog myDb tempSpc =
      .ok InvalidOid ∧
    GetDefaultTablespace relpersistence (some "") catalog myDb tempSpc =
      .ok InvalidOid ∧
    (catalog.find? (fun t => t.name = s) = none →
      GetDefaultTablespace relpersistence (some s) catalog myDb tempSpc =
        .ok InvalidOid) ∧
    (catalog.find? (fun t => t.name = s) = some r → r.oid = myDb →
      GetDefaultTablespace relpersistence (some s) catalog myDb tempSpc =
        .ok InvalidOid) := by
  refine ⟨?_, ?_, fun hfind => ?_, fun hfind hdb => ?_⟩
  · simp [GetDefaultTablespace, hp]
  · simp [GetDefaultTablespace, hp]
  · by_cases hs : s = ""
    · simp [GetDefaultTablespace, hp, hs]
    · simp [GetDefaultTablespace, hp, hs, get_tablespace_oid, hfind,
            InvalidOid]
  · by_cases hs : s = ""
    · simp [GetDefaultTablespace, hp, hs]
    · simp [GetDefaultTablespace, hp, hs, get_tablespace_oid, hfind, hdb]

/-- Witness for C9: with persistence 'p', an unresolvable configured name
"spc_gone" yields the sentinel without error. -/
theorem C9_default_tablespace_silent_witness :
    GetDefaultTablespace 'p' (some "spc_gone")
        [{ oid := 5, name := "spc_a", owner := 1 }] 1663 0 =
      .ok InvalidOid := by
  exact (C9_default_tablespace_silent 'p'
    [{ oid := 5, name := "spc_a", owner := 1 }] 1663 0 "spc_gone"
    { oid := 5, name := "spc_a", owner := 1 } (by decide)).2.2.1 (by decide)

end Tblspc
